import Mathlib

/-!
Shallow embedding of the multi-step research orchestrator in
`src/supabase/functions/perplexity-research/index.ts`.

The orchestrator is a single Deno HTTP handler: it reads
`{ query, step = 0, previousData = null }`, selects one of five named
research steps, calls the relevant provider adapters, and returns either a
step-result object (HTTP 200), a `{ error }` object for a missing query
(HTTP 400), or a `{ error }` object from the outermost `catch` (HTTP 500).

External effects are modelled as oracles: each upstream `fetch` outcome is a
parameter (an `Except` value: `ok` a parsed JSON body, or `error` the HTTP
status used to build the thrown message), `Math.random()` draws are a
function from the citation index to the pair of draws made for that
citation, and `new Date().toISOString()` is a string parameter.  JavaScript
numbers used by the score arithmetic are embedded as exact rationals, and
JavaScript falsiness checks on the fields the code inspects are embedded
explicitly (missing field, empty string, zero).
-/

set_option autoImplicit false

namespace VibeResearch

/-- A `usage` object on a provider payload; `total_tokens` may be absent
(`usage.total_tokens || 0` in the source). -/
structure Usage where
  total_tokens : Option Nat := none
  deriving Repr, DecidableEq

/-- The value found in a citation's `url` field when present: either a
JavaScript string or some non-string JSON value (number, object, ...). -/
inductive UrlVal where
  | str (s : String)
  | nonString
  deriving Repr, DecidableEq

/-- A citation as returned by the search provider, before the adapter's
post-processing ("Enhance citations" in the source). -/
structure CitationIn where
  url : Option UrlVal := none
  title : Option String := none
  snippet : Option String := none
  source : Option String := none
  deriving Repr, DecidableEq

/-- A citation after post-processing: `url` coerced to a string, scores and
category attached; the other fields pass through unchanged. -/
structure CitationOut where
  url : String
  title : Option String
  snippet : Option String
  source : Option String
  relevanceScore : ℚ
  trustScore : ℚ
  category : String
  deriving Repr, DecidableEq

/-- `if (!citation.url || typeof citation.url !== "string") citation.url = "#"`:
the placeholder is substituted when `url` is absent, not a string, or the
empty string (which is falsy in JavaScript). -/
def fixUrl : Option UrlVal → String
  | some (UrlVal.str s) => if s = "" then "#" else s
  | _ => "#"

/-- The condition under which the source replaces a citation's url. -/
def jsMalformedUrl : Option UrlVal → Bool
  | some (UrlVal.str s) => s == ""
  | _ => true

/-- `Math.max(0.3, 1 - index * 0.1 + (Math.random() * 0.2 - 0.1))` with
`r` the `Math.random()` draw (so `r ∈ [0, 1)`). -/
def relevanceScore (index : Nat) (r : ℚ) : ℚ :=
  max (3/10) (1 - (index : ℚ) * (1/10) + (r * (2/10) - 1/10))

/-- `Math.max(0.4, 0.9 - Math.random() * 0.3)` with `r` the draw. -/
def trustScore (r : ℚ) : ℚ :=
  max (4/10) (9/10 - r * (3/10))

/-- `citation.source || "web"` (an empty-string source is falsy). -/
def categoryOf : Option String → String
  | some s => if s = "" then "web" else s
  | none => "web"

/-- Post-processing of one citation at a given position, with `rnd` the pair
of `Math.random()` draws made for it (relevance first, trust second). -/
def enhanceCitation (index : Nat) (rnd : ℚ × ℚ) (c : CitationIn) : CitationOut :=
  { url := fixUrl c.url
    title := c.title
    snippet := c.snippet
    source := c.source
    relevanceScore := relevanceScore index rnd.1
    trustScore := trustScore rnd.2
    category := categoryOf c.source }

/-- The indexed `citations.map((citation, index) => ...)` of the source,
started at position `i`; `rands` gives the random draws per position. -/
def enhanceFrom (rands : ℕ → ℚ × ℚ) : ℕ → List CitationIn → List CitationOut
  | _, [] => []
  | i, c :: cs => enhanceCitation i (rands i) c :: enhanceFrom rands (i + 1) cs

/-- The citation post-processing pass of `callPerplexity`. -/
def enhanceCitations (rands : ℕ → ℚ × ℚ) (cs : List CitationIn) : List CitationOut :=
  enhanceFrom rands 0 cs

/-- The parsed JSON body of a successful Perplexity upstream response, keeping
the fields the orchestrator reads (`citations`, `usage`); `citations = none`
models the `result.citations && Array.isArray(result.citations)` guard
failing (field absent or not an array). -/
structure PerplexityRaw where
  citations : Option (List CitationIn) := none
  usage : Option Usage := none
  deriving Repr, DecidableEq

/-- A Perplexity response after `callPerplexity`'s citation enhancement. -/
structure PerplexityResult where
  citations : Option (List CitationOut)
  usage : Option Usage
  deriving Repr, DecidableEq

/-- An opaque reasoning-provider (Gemini) response body, returned unmodified
by `callGemini`. -/
structure GeminiResponse where
  payload : String
  deriving Repr, DecidableEq

/-- An opaque classification-provider (OpenAI) response body, returned
unmodified by `callOpenAI`. -/
structure OpenAIResponse where
  payload : String
  deriving Repr, DecidableEq

/-- `callPerplexity`: a non-ok upstream response throws
`Perplexity API error: <status>`; an ok response has its citation list
enhanced in place (when present) and is returned. -/
def callPerplexity (rands : ℕ → ℚ × ℚ) (upstream : Except ℕ PerplexityRaw) :
    Except String PerplexityResult :=
  match upstream with
  | Except.error status => Except.error ("Perplexity API error: " ++ toString status)
  | Except.ok raw =>
      Except.ok { citations := raw.citations.map (enhanceCitations rands)
                  usage := raw.usage }

/-- `callGemini`: a non-ok upstream response throws
`Gemini API error: <status>`; an ok response body is returned unmodified. -/
def callGemini (upstream : Except ℕ GeminiResponse) : Except String GeminiResponse :=
  match upstream with
  | Except.error status => Except.error ("Gemini API error: " ++ toString status)
  | Except.ok r => Except.ok r

/-- `callOpenAI`: a non-ok upstream response throws
`OpenAI API error: <status>`; an ok response body is returned unmodified. -/
def callOpenAI (upstream : Except ℕ OpenAIResponse) : Except String OpenAIResponse :=
  match upstream with
  | Except.error status => Except.error ("OpenAI API error: " ++ toString status)
  | Except.ok r => Except.ok r

/-- One element of `previousData` / of the step history, keeping exactly the
fields `generateFinalReport` and `generateCrossReferences` read from a prior
step result: `step`, `service`, `data.citations`, `data.usage.total_tokens`
and `metadata?.confidence`. -/
structure StepPayload where
  citations : Option (List CitationOut) := none
  usage : Option Usage := none
  deriving Repr, DecidableEq

/-- A prior step result as seen by the aggregation functions. -/
structure StepData where
  step : Option ℤ := none
  service : Option String := none
  data : Option StepPayload := none
  metadataConfidence : Option ℚ := none
  deriving Repr, DecidableEq

/-- One cross-reference record. -/
structure CrossRef where
  type : String
  confidence : ℚ
  sources : List String
  description : String
  deriving Repr, DecidableEq

/-- `generateCrossReferences(data)`: `if (!data) return []` (the argument is
`previousData`, which is `null` — embedded as `none` — when absent; any
array, even empty, is truthy), else the fixed three-record list. -/
def generateCrossReferences (data : Option (List StepData)) : List CrossRef :=
  match data with
  | none => []
  | some _ =>
      [ { type := "fact_verification"
          confidence := 92/100
          sources := ["Perplexity", "Gemini"]
          description := "Факты подтверждены несколькими источниками" },
        { type := "semantic_consistency"
          confidence := 88/100
          sources := ["Gemini", "OpenAI"]
          description := "Семантическая согласованность анализа" },
        { type := "classification_accuracy"
          confidence := 95/100
          sources := ["OpenAI", "Perplexity"]
          description := "Точность классификации и тегирования" } ]

/-- The per-step summary pushed onto `report.researchSteps`. -/
structure StepSummary where
  step : Option ℤ
  service : Option String
  confidence : ℚ
  deriving Repr, DecidableEq

/-- The fixed `qualityMetrics` object of the final report. -/
structure QualityMetrics where
  factualAccuracy : ℚ
  sourceReliability : ℚ
  analysisDepth : ℚ
  synthesisQuality : ℚ
  deriving Repr, DecidableEq

/-- The final report object built by `generateFinalReport`.  The knowledge
graph fields are always the empty arrays the source initialises them to. -/
structure FinalReport where
  query : String
  timestamp : String
  totalSources : ℕ
  totalTokens : ℕ
  researchSteps : List StepSummary
  keyFindings : List String
  knowledgeGraphNodes : List String
  knowledgeGraphEdges : List String
  knowledgeGraphTopics : List String
  qualityMetrics : QualityMetrics
  recommendations : List String
  deriving Repr, DecidableEq

/-- `stepData.metadata?.confidence || 0.8`: a missing or zero (falsy)
confidence defaults to `0.8`. -/
def jsOrConfidence : Option ℚ → ℚ
  | some v => if v = 0 then 8/10 else v
  | none => 8/10

/-- Citations contributed by one history element:
`if (stepData.data && stepData.data.citations) totalSources += ...length`. -/
def citationCount (sd : StepData) : ℕ :=
  match sd.data with
  | some p => match p.citations with
    | some cl => cl.length
    | none => 0
  | none => 0

/-- Tokens contributed by one history element:
`if (stepData.data && stepData.data.usage) totalTokens += ...total_tokens || 0`. -/
def tokenCount (sd : StepData) : ℕ :=
  match sd.data with
  | some p => match p.usage with
    | some u => u.total_tokens.getD 0
    | none => 0
  | none => 0

/-- The report object as initialised at the top of `generateFinalReport`,
before the aggregation loop runs. -/
def emptyReport (query timestamp : String) : FinalReport :=
  { query := query
    timestamp := timestamp
    totalSources := 0
    totalTokens := 0
    researchSteps := []
    keyFindings := []
    knowledgeGraphNodes := []
    knowledgeGraphEdges := []
    knowledgeGraphTopics := []
    qualityMetrics :=
      { factualAccuracy := 95/100
        sourceReliability := 88/100
        analysisDepth := 92/100
        synthesisQuality := 9/10 }
    recommendations :=
      [ "Рекомендуется дальнейшее исследование выявленных трендов",
        "Необходимо мониторить изменения в ключевых источниках",
        "Полезно расширить анализ смежных тематик" ] }

/-- One iteration of the `allData.forEach((stepData) => ...)` loop. -/
def reportStep (r : FinalReport) (sd : StepData) : FinalReport :=
  { r with
    totalSources := r.totalSources + citationCount sd
    totalTokens := r.totalTokens + tokenCount sd
    researchSteps := r.researchSteps ++
      [{ step := sd.step
         service := sd.service
         confidence := jsOrConfidence sd.metadataConfidence }] }

/-- `generateFinalReport(query, allData)`: builds the fixed report skeleton,
then, when `allData` is a (possibly empty) array, folds the aggregation loop
over it; a `null` history skips the loop. -/
def generateFinalReport (query timestamp : String) (allData : Option (List StepData)) :
    FinalReport :=
  match allData with
  | some l => l.foldl reportStep (emptyReport query timestamp)
  | none => emptyReport query timestamp

/-- The outside world as seen by one handler invocation: the outcome of each
provider `fetch` (at most one per provider per invocation), the
`Math.random()` draws used by the citation enhancement, and the clock. -/
structure Upstream where
  perplexity : Except ℕ PerplexityRaw
  gemini : Except ℕ GeminiResponse
  openai : Except ℕ OpenAIResponse
  perplexityRands : ℕ → ℚ × ℚ
  timestamp : String

/-- The parsed request body `{ query, step = 0, previousData = null }`.
`query = none` models an absent field; `step` is any integer (the source
indexes `researchSteps[step]` with it). -/
structure Request where
  query : Option String
  step : ℤ := 0
  previousData : Option (List StepData) := none

/-- The `data` field of a step result: its shape differs per step. -/
inductive StepPayloadOut where
  | perplexity (r : PerplexityResult)
  | gemini (r : GeminiResponse)
  | openai (r : OpenAIResponse)
  | multi (validation : PerplexityResult) (synthesis : GeminiResponse)
      (crossReferences : List CrossRef)
  | report (r : FinalReport)
  deriving Repr, DecidableEq

/-- The `metadata` object of a step result: one shape per step. -/
inductive StepMeta where
  | initialMeta (sourcesFound tokensUsed : ℕ) (confidence : ℚ)
  | deepMeta (conceptsAnalyzed connectionsFound : ℕ) (confidence : ℚ)
  | classifyMeta (tagsGenerated categoriesCreated : ℕ) (confidence : ℚ)
  | synthMeta (factsValidated contradictionsResolved : ℕ) (finalConfidence : ℚ)
  | finalMeta (totalSources totalTokens : ℕ) (researchQuality : ℚ)
  deriving Repr, DecidableEq

/-- The step-result object serialised on the 200 path.  `previousData` is
`none` when the field is absent from the object (step 0 only), and
`some pd` when the source writes `previousData: previousData` (the inner
value may itself be `none`, i.e. `null`). -/
structure StepResult where
  step : ℕ
  stepName : String
  service : String
  data : StepPayloadOut
  previousData : Option (Option (List StepData))
  nextStep : Option ℕ
  progress : ℕ
  aiThoughts : List String
  metadata : StepMeta
  deriving Repr, DecidableEq

/-- The three kinds of response the handler produces: a step result with
status 200, the `Query is required` object with status 400, the outer-catch
`{ error }` object with status 500 — plus the unreachable `{}` (status 200)
that the source would return if no step branch matched. -/
inductive HandlerResponse where
  | ok (result : StepResult)
  | okEmpty
  | badRequest (error : String)
  | serverError (error : String)
  deriving Repr, DecidableEq

/-- The `researchSteps` name table of the handler. -/
def researchSteps : List String :=
  [ "initial_research", "deep_analysis", "classification_tagging",
    "synthesis_validation", "final_report" ]

/-- `researchSteps[step]` on an arbitrary integer index: a value only for
`0 ≤ step < 5`, `undefined` (here `none`) otherwise. -/
def lookupResearchStep (step : ℤ) : Option String :=
  if 0 ≤ step ∧ step < 5 then researchSteps.get? step.toNat else none

/-- `researchSteps[step] || "initial_research"` (all five names are
non-empty, hence truthy, so `||` only replaces `undefined`). -/
def currentStepOf (step : ℤ) : String :=
  (lookupResearchStep step).getD "initial_research"

/-- `perplexityResponse.citations?.length || 0`. -/
def citationsLengthOf (r : PerplexityResult) : ℕ :=
  (r.citations.map List.length).getD 0

/-- `perplexityResponse.usage?.total_tokens || 0`. -/
def totalTokensOf (r : PerplexityResult) : ℕ :=
  ((r.usage.map (fun u => u.total_tokens.getD 0)).getD 0)

/-- The whole `Deno.serve` request handler (CORS preflight aside): parse the
body, reject a falsy `query`, select the step branch by
`researchSteps[step] || "initial_research"`, run the branch's adapter calls,
and serialise.  A thrown adapter error reaches the single outer `catch`,
which responds with `{ error: error.message }` and status 500; no step
branch catches it.  In step 3 the two calls run under `Promise.all`; the
embedding reports the Perplexity rejection when both fail (the join fails
with some failed call's error — which one is timing-dependent, and no
theorem below depends on the choice). -/
def handle (u : Upstream) (req : Request) : HandlerResponse :=
  match req.query with
  | none => HandlerResponse.badRequest "Query is required"
  | some query =>
    if query = "" then HandlerResponse.badRequest "Query is required"
    else
      let currentStep := currentStepOf req.step
      if currentStep = "initial_research" then
        match callPerplexity u.perplexityRands u.perplexity with
        | Except.error e => HandlerResponse.serverError e
        | Except.ok perplexityResponse =>
            HandlerResponse.ok
              { step := 0
                stepName := "Начальное исследование"
                service := "Perplexity"
                data := StepPayloadOut.perplexity perplexityResponse
                previousData := none
                nextStep := some 1
                progress := 20
                aiThoughts :=
                  [ "🔍 Анализирую запрос пользователя...",
                    "📡 Сканирую доступные источники информации...",
                    "🎯 Определяю ключевые темы для исследования...",
                    "📊 Собираю первичные данные из надежных источников...",
                    "🔗 Создаю базовую структуру знаний..." ]
                metadata := StepMeta.initialMeta
                  (citationsLengthOf perplexityResponse)
                  (totalTokensOf perplexityResponse)
                  (75/100) }
      else if currentStep = "deep_analysis" then
        match callGemini u.gemini with
        | Except.error e => HandlerResponse.serverError e
        | Except.ok geminiResponse =>
            HandlerResponse.ok
              { step := 1
                stepName := "Глубокий анализ"
                service := "Gemini"
                data := StepPayloadOut.gemini geminiResponse
                previousData := some req.previousData
                nextStep := some 2
                progress := 40
                aiThoughts :=
                  [ "🧠 Получаю данные от Perplexity для анализа...",
                    "🔬 Провожу семантический анализ содержимого...",
                    "🕸️ Выявляю скрытые связи между концепциями...",
                    "📈 Анализирую тренды и паттерны в данных...",
                    "🎭 Определяю контекстуальные нюансы...",
                    "🔄 Подготавливаю структурированные данные для OpenAI..." ]
                metadata := StepMeta.deepMeta 15 8 (85/100) }
      else if currentStep = "classification_tagging" then
        match callOpenAI u.openai with
        | Except.error e => HandlerResponse.serverError e
        | Except.ok openaiResponse =>
            HandlerResponse.ok
              { step := 2
                stepName := "Классификация и тегирование"
                service := "OpenAI GPT-4"
                data := StepPayloadOut.openai openaiResponse
                previousData := some req.previousData
                nextStep := some 3
                progress := 65
                aiThoughts :=
                  [ "🏷️ Получаю обработанные данные от Gemini...",
                    "📋 Создаю систему классификации для информации...",
                    "🎯 Генерирую релевантные теги для каждого концепта...",
                    "📊 Структурирую данные по категориям важности...",
                    "🔍 Выделяю ключевые инсайты и выводы...",
                    "🌐 Создаю граф знаний с тегированными узлами..." ]
                metadata := StepMeta.classifyMeta 25 6 (9/10) }
      else if currentStep = "synthesis_validation" then
        match callPerplexity u.perplexityRands u.perplexity with
        | Except.error e => HandlerResponse.serverError e
        | Except.ok perplexityValidation =>
          match callGemini u.gemini with
          | Except.error e => HandlerResponse.serverError e
          | Except.ok geminiSynthesis =>
              HandlerResponse.ok
                { step := 3
                  stepName := "Синтез и валидация"
                  service := "Multi-AI (Perplexity + Gemini)"
                  data := StepPayloadOut.multi perplexityValidation geminiSynthesis
                    (generateCrossReferences req.previousData)
                  previousData := some req.previousData
                  nextStep := some 4
                  progress := 85
                  aiThoughts :=
                    [ "🔄 Синтезирую данные от всех AI-сервисов...",
                      "✅ Провожу кросс-валидацию фактов через Perplexity...",
                      "🧬 Объединяю анализ от Gemini в единую структуру...",
                      "🎯 Выявляю противоречия и устраняю неточности...",
                      "📊 Создаю финальную оценку достоверности...",
                      "🌟 Формирую ключевые инсайты и выводы..." ]
                  metadata := StepMeta.synthMeta 45 3 (95/100) }
      else if currentStep = "final_report" then
        let finalReport := generateFinalReport query u.timestamp req.previousData
        HandlerResponse.ok
          { step := 4
            stepName := "Финальный отчет"
            service := "Research Orchestrator"
            data := StepPayloadOut.report finalReport
            previousData := some req.previousData
            nextStep := none
            progress := 100
            aiThoughts :=
              [ "📋 Компилирую финальный исследовательский отчет...",
                "📊 Интегрирую все данные и анализ...",
                "🎨 Создаю визуализации и графы знаний...",
                "📈 Генерирую метрики качества исследования...",
                "✨ Финализирую презентацию результатов...",
                "🎯 Исследование завершено успешно!" ]
            metadata := StepMeta.finalMeta finalReport.totalSources
              finalReport.totalTokens (98/100) }
      else
        HandlerResponse.okEmpty

/-- The `step` field of a 200 step-result response, if any. -/
def stepOfR : HandlerResponse → Option ℕ
  | HandlerResponse.ok r => some r.step
  | _ => none

/-- The `progress` field of a 200 step-result response, if any. -/
def progressOf : HandlerResponse → Option ℕ
  | HandlerResponse.ok r => some r.progress
  | _ => none

/-- The `nextStep` field of a 200 step-result response, if any (the inner
`Option` is the field's own nullability). -/
def nextStepOf : HandlerResponse → Option (Option ℕ)
  | HandlerResponse.ok r => some r.nextStep
  | _ => none

/-- The `stepName` field of a 200 step-result response, if any. -/
def stepNameOf : HandlerResponse → Option String
  | HandlerResponse.ok r => some r.stepName
  | _ => none

/-- The deterministic wrapping metadata `(step, stepName, service, progress)`
of a 200 step-result response, if any. -/
def headerOf : HandlerResponse → Option (ℕ × String × String × ℕ)
  | HandlerResponse.ok r => some (r.step, r.stepName, r.service, r.progress)
  | _ => none

/-- The wrapping metadata each step branch hard-codes, keyed by the selected
step name (any unmatched name maps to the step-0 header; it is only ever
applied to one of the five names). -/
def stepHeader : String → ℕ × String × String × ℕ
  | "deep_analysis" => (1, "Глубокий анализ", "Gemini", 40)
  | "classification_tagging" => (2, "Классификация и тегирование", "OpenAI GPT-4", 65)
  | "synthesis_validation" => (3, "Синтез и валидация", "Multi-AI (Perplexity + Gemini)", 85)
  | "final_report" => (4, "Финальный отчет", "Research Orchestrator", 100)
  | _ => (0, "Начальное исследование", "Perplexity", 20)

/-- A world in which every provider call succeeds, with fixed random draws:
the baseline for concrete runs, varied by record update in the theorems. -/
def oracleOk : Upstream :=
  { perplexity := Except.ok ({} : PerplexityRaw)
    gemini := Except.ok { payload := "gemini synthesis" }
    openai := Except.ok { payload := "openai tags" }
    perplexityRands := fun _ => (1/2, 1/2)
    timestamp := "2026-01-01T00:00:00.000Z" }

/-- A post-processed citation used to populate concrete histories. -/
def sampleCitation : CitationOut :=
  { url := "https://example.org/a"
    title := some "a"
    snippet := none
    source := none
    relevanceScore := 1/2
    trustScore := 1/2
    category := "web" }

/-- The history of the final-report aggregation scenario: its step-0 entry
carries 5 citations and 120 tokens, its step-2 entry 0 citations and 80
tokens. -/
def sampleHistory : List StepData :=
  [ { step := some 0
      service := some "Perplexity"
      data := some { citations := some (List.replicate 5 sampleCitation)
                     usage := some { total_tokens := some 120 } }
      metadataConfidence := some (75/100) },
    { step := some 2
      service := some "OpenAI GPT-4"
      data := some { citations := some []
                     usage := some { total_tokens := some 80 } }
      metadataConfidence := some (9/10) } ]

/-- Citation list with a claim-malformed url (absent) at position 0 and an
empty-string url — present and a string, so well-formed in the claim's
sense — at position 1. -/
def emptyUrlCitations : List CitationIn :=
  [ { url := none }, { url := some (UrlVal.str "") } ]

/-- Citation list with one well-formed url, for the score witnesses. -/
def oneCitation : List CitationIn :=
  [ { url := some (UrlVal.str "https://example.org/a") } ]

/-- Citations exercising both url cases of the amended post-processing
claim: an empty-string url at position 0 and a well-formed one at 1. -/
def mixedUrlCitations : List CitationIn :=
  [ { url := some (UrlVal.str "") }, { url := some (UrlVal.str "https://ok.example") } ]

/-- Random draws that always return the pair `(3/4, 1/2)`: an admissible
value of `Math.random()` whose relevance jitter is strictly positive. -/
def posJitterRands : ℕ → ℚ × ℚ := fun _ => (3/4, 1/2)

section Lemmas

@[simp] theorem length_enhanceFrom (rands : ℕ → ℚ × ℚ) (i : ℕ) (cs : List CitationIn) :
    (enhanceFrom rands i cs).length = cs.length := by
  induction cs generalizing i with
  | nil => rfl
  | cons c cs ih => simp [enhanceFrom, ih]

theorem get_enhanceFrom (rands : ℕ → ℚ × ℚ) (i : ℕ) (cs : List CitationIn)
    (k : ℕ) (hk : k < cs.length) (hk2 : k < (enhanceFrom rands i cs).length) :
    (enhanceFrom rands i cs).get ⟨k, hk2⟩
      = enhanceCitation (i + k) (rands (i + k)) (cs.get ⟨k, hk⟩) := by
  induction cs generalizing i k with
  | nil => exact absurd hk (by simp)
  | cons c cs ih =>
    cases k with
    | zero => simp [enhanceFrom]
    | succ k =>
      have h1 : k < cs.length := by simpa using hk
      have h2 : k < (enhanceFrom rands (i + 1) cs).length := by simpa using h1
      have := ih (i + 1) k h1 h2
      simpa [enhanceFrom, Nat.add_assoc, Nat.add_comm 1 k] using this

@[simp] theorem length_enhanceCitations (rands : ℕ → ℚ × ℚ) (cs : List CitationIn) :
    (enhanceCitations rands cs).length = cs.length :=
  length_enhanceFrom rands 0 cs

theorem get_enhanceCitations (rands : ℕ → ℚ × ℚ) (cs : List CitationIn)
    (k : ℕ) (hk : k < cs.length) (hk2 : k < (enhanceCitations rands cs).length) :
    (enhanceCitations rands cs).get ⟨k, hk2⟩
      = enhanceCitation k (rands k) (cs.get ⟨k, hk⟩) := by
  simpa using get_enhanceFrom rands 0 cs k hk hk2

theorem trustScore_mem (r : ℚ) (h0 : 0 ≤ r) (h1 : r < 1) :
    3/5 < trustScore r ∧ trustScore r ≤ 9/10 := by
  unfold trustScore
  constructor
  · rw [max_def]
    split <;> linarith
  · apply max_le <;> linarith

theorem relevanceScore_lower (index : ℕ) (r : ℚ) :
    3/10 ≤ relevanceScore index r :=
  le_max_left _ _

theorem relevanceScore_upper (index : ℕ) (r : ℚ) (h1 : r < 1) :
    relevanceScore index r < 11/10 := by
  unfold relevanceScore
  have hi : (0 : ℚ) ≤ (index : ℚ) := Nat.cast_nonneg index
  apply max_lt <;> nlinarith

theorem relevanceScore_le_one (index : ℕ) (r : ℚ) (hi : 1 ≤ index) (h1 : r < 1) :
    relevanceScore index r ≤ 1 := by
  unfold relevanceScore
  have hi1 : (1 : ℚ) ≤ (index : ℚ) := by exact_mod_cast hi
  apply max_le <;> nlinarith

theorem totalSources_foldl (l : List StepData) (r : FinalReport) :
    (l.foldl reportStep r).totalSources = r.totalSources + (l.map citationCount).sum := by
  induction l generalizing r with
  | nil => simp
  | cons sd l ih => simp [ih, reportStep, Nat.add_assoc]

theorem totalTokens_foldl (l : List StepData) (r : FinalReport) :
    (l.foldl reportStep r).totalTokens = r.totalTokens + (l.map tokenCount).sum := by
  induction l generalizing r with
  | nil => simp
  | cons sd l ih => simp [ih, reportStep, Nat.add_assoc]

theorem headerOf_handle (u : Upstream) (req : Request)
    (x : ℕ × String × String × ℕ) (h : headerOf (handle u req) = some x) :
    x = stepHeader (currentStepOf req.step) := by
  obtain ⟨oq, step, pd⟩ := req
  unfold handle at h
  cases oq with
  | none => simp [headerOf] at h
  | some q =>
    by_cases hq : q = "" <;> simp only [hq, if_true, if_false, reduceIte] at h
    · simp [headerOf] at h
    · split_ifs at h with h1 h2 h3 h4 h5
      · split at h
        · simp [headerOf] at h
        · simp only [headerOf, Option.some.injEq] at h
          simp [← h, h1, stepHeader]
      · split at h
        · simp [headerOf] at h
        · simp only [headerOf, Option.some.injEq] at h
          simp [← h, h2, stepHeader]
      · split at h
        · simp [headerOf] at h
        · simp only [headerOf, Option.some.injEq] at h
          simp [← h, h3, stepHeader]
      · split at h
        · simp [headerOf] at h
        · split at h
          · simp [headerOf] at h
          · simp only [headerOf, Option.some.injEq] at h
            simp [← h, h4, stepHeader]
      · simp only [headerOf, Option.some.injEq] at h
        simp [← h, h5, stepHeader]
      · simp [headerOf] at h

end Lemmas

/-- C1 counterexample.  The claim says a failing adapter call in steps 0–3 is
caught by the step executor, a StepResult marked failed is still produced,
and the error is not surfaced as a whole-invocation failure.  In the code
the throw from `callPerplexity` propagates to the handler's single outer
`catch`: with the Perplexity upstream returning status 500, invoking step 0
yields the whole-invocation `{ error }` response (HTTP 500) — not a 200 step
result. -/
theorem adapter_error_becomes_500_at_step0 :
    handle { oracleOk with perplexity := Except.error 500 }
      { query := some "q", step := 0, previousData := none }
      = HandlerResponse.serverError "Perplexity API error: 500" := rfl

/-- C1 (amended): if the adapter call of step 0, 1, 2 or 3 fails, the error
escapes the step branch and the invocation returns the outer-catch
`{ error: "<provider> API error: <status>" }` response (HTTP 500); no
StepResult is produced for the step.  (The pipeline only continues because
the external driver catches the failed invocation.) -/
theorem adapter_error_propagates_per_step (u : Upstream) (q : String)
    (pd : Option (List StepData)) (hq : q ≠ "") :
    (∀ s, u.perplexity = Except.error s →
      handle u { query := some q, step := 0, previousData := pd }
        = HandlerResponse.serverError ("Perplexity API error: " ++ toString s)) ∧
    (∀ s, u.gemini = Except.error s →
      handle u { query := some q, step := 1, previousData := pd }
        = HandlerResponse.serverError ("Gemini API error: " ++ toString s)) ∧
    (∀ s, u.openai = Except.error s →
      handle u { query := some q, step := 2, previousData := pd }
        = HandlerResponse.serverError ("OpenAI API error: " ++ toString s)) ∧
    (∀ s, u.perplexity = Except.error s →
      handle u { query := some q, step := 3, previousData := pd }
        = HandlerResponse.serverError ("Perplexity API error: " ++ toString s)) := by
  refine ⟨fun s hs => ?_, fun s hs => ?_, fun s hs => ?_, fun s hs => ?_⟩ <;>
    simp [handle, hq, currentStepOf, lookupResearchStep, researchSteps,
      callPerplexity, callGemini, callOpenAI, hs]

/-- C1 witness: the amended theorem at a concrete world where the Perplexity
upstream fails step 0 with status 503. -/
theorem adapter_error_propagates_per_step_witness :
    handle { oracleOk with perplexity := Except.error 503 }
      { query := some "q", step := 0, previousData := none }
      = HandlerResponse.serverError "Perplexity API error: 503" :=
  (adapter_error_propagates_per_step
    { oracleOk with perplexity := Except.error 503 } "q" none (by decide)).1 503 rfl

/-- C2 counterexample.  The claim says every post-processed citation's
`relevanceScore` lies in `[0, 1]` for every jitter value, in particular at
position 0.  With the admissible draw `Math.random() = 3/4` (jitter `+1/20`)
the citation at position 0 gets `relevanceScore = 21/20 > 1`: the source
clamps the score from below (`Math.max(0.3, ...)`) but not from above. -/
theorem relevanceScore_exceeds_one_at_position_zero :
    ((0 : ℚ) ≤ 3/4 ∧ (3/4 : ℚ) < 1) ∧
    (enhanceCitations posJitterRands oneCitation).map CitationOut.relevanceScore
      = [21/20] ∧
    1 < relevanceScore 0 (3/4) := by
  refine ⟨by norm_num, ?_, ?_⟩
  · simp [enhanceCitations, enhanceFrom, enhanceCitation, oneCitation,
      posJitterRands, relevanceScore]
    rw [max_eq_right (by norm_num)]
    norm_num
  · unfold relevanceScore
    rw [max_eq_right (by norm_num)]
    norm_num

/-- C2 (amended): for every admissible pair of `Math.random()` draws, every
post-processed citation's `trustScore` lies in `[0, 1]` (indeed in
`(3/5, 9/10]`), its `relevanceScore` is at least `3/10 ≥ 0` and below
`11/10`, and for every position other than 0 the `relevanceScore` is also at
most 1; only position 0 can exceed 1. -/
theorem citation_scores_bounds (rands : ℕ → ℚ × ℚ) (cs : List CitationIn)
    (i : ℕ) (h1 : i < cs.length) (h2 : i < (enhanceCitations rands cs).length)
    (_hr1 : 0 ≤ (rands i).1) (hr1' : (rands i).1 < 1)
    (hr2 : 0 ≤ (rands i).2) (hr2' : (rands i).2 < 1) :
    (0 ≤ ((enhanceCitations rands cs).get ⟨i, h2⟩).trustScore ∧
      ((enhanceCitations rands cs).get ⟨i, h2⟩).trustScore ≤ 1) ∧
    0 ≤ ((enhanceCitations rands cs).get ⟨i, h2⟩).relevanceScore ∧
    ((enhanceCitations rands cs).get ⟨i, h2⟩).relevanceScore < 11/10 ∧
    (1 ≤ i → ((enhanceCitations rands cs).get ⟨i, h2⟩).relevanceScore ≤ 1) := by
  rw [get_enhanceCitations rands cs i h1 h2]
  have ht := trustScore_mem (rands i).2 hr2 hr2'
  have hl := relevanceScore_lower i (rands i).1
  have hu := relevanceScore_upper i (rands i).1 hr1'
  refine ⟨⟨by simp [enhanceCitation]; linarith [ht.1], by
    simp [enhanceCitation]; linarith [ht.2]⟩,
    by simp [enhanceCitation]; linarith,
    by simp [enhanceCitation]; linarith,
    fun hi => by
      simp [enhanceCitation]
      exact relevanceScore_le_one i (rands i).1 hi hr1'⟩

/-- C2 witness: the amended bounds at position 0 of a one-citation list with
both draws equal to `1/2`. -/
theorem citation_scores_bounds_witness :
    (0 ≤ ((enhanceCitations oracleOk.perplexityRands oneCitation).get
        ⟨0, by simp [oneCitation]⟩).trustScore ∧
      ((enhanceCitations oracleOk.perplexityRands oneCitation).get
        ⟨0, by simp [oneCitation]⟩).trustScore ≤ 1) ∧
    0 ≤ ((enhanceCitations oracleOk.perplexityRands oneCitation).get
      ⟨0, by simp [oneCitation]⟩).relevanceScore ∧
    ((enhanceCitations oracleOk.perplexityRands oneCitation).get
      ⟨0, by simp [oneCitation]⟩).relevanceScore < 11/10 ∧
    (1 ≤ 0 → ((enhanceCitations oracleOk.perplexityRands oneCitation).get
      ⟨0, by simp [oneCitation]⟩).relevanceScore ≤ 1) :=
  citation_scores_bounds oracleOk.perplexityRands oneCitation 0
    (by simp [oneCitation]) (by simp [oneCitation])
    (by norm_num [oracleOk]) (by norm_num [oracleOk])
    (by norm_num [oracleOk]) (by norm_num [oracleOk])

/-- C3 counterexample.  The claim says that if exactly one of step 3's two
concurrent calls fails, a (possibly partial) step-3 StepResult is still
produced and no uncaught exception escapes to the invocation level.  In the
code the `Promise.all` rejection propagates to the outer `catch`: with the
Perplexity call succeeding and the Gemini call failing with status 502, the
invocation returns the whole-invocation `{ error }` response, not a step
result. -/
theorem step3_partial_failure_becomes_500 :
    handle { oracleOk with gemini := Except.error 502 }
      { query := some "q", step := 3, previousData := none }
      = HandlerResponse.serverError "Gemini API error: 502" := rfl

/-- C3 (amended): in step 3's join, if either of the two concurrent adapter
calls fails, the join's rejection escapes to the outer catch and the
invocation returns the `{ error }` (HTTP 500) response; no step-3 StepResult
is produced and the successful call's result is discarded.  (The run reaches
step 4 only because the external driver catches the failed invocation and
issues the next call.) -/
theorem step3_join_failure_propagates (u : Upstream) (q : String)
    (pd : Option (List StepData)) (hq : q ≠ "") :
    (∀ s, u.perplexity = Except.error s →
      handle u { query := some q, step := 3, previousData := pd }
        = HandlerResponse.serverError ("Perplexity API error: " ++ toString s)) ∧
    (∀ s p, u.perplexity = Except.ok p → u.gemini = Except.error s →
      handle u { query := some q, step := 3, previousData := pd }
        = HandlerResponse.serverError ("Gemini API error: " ++ toString s)) := by
  constructor
  · intro s hs
    simp [handle, hq, currentStepOf, lookupResearchStep, researchSteps,
      callPerplexity, hs]
  · intro s p hp hg
    simp [handle, hq, currentStepOf, lookupResearchStep, researchSteps,
      callPerplexity, callGemini, hp, hg]

/-- C3 witness: the amended theorem at a concrete world where the Gemini
half of the join fails with status 502 while the Perplexity half succeeds. -/
theorem step3_join_failure_propagates_witness :
    handle { oracleOk with gemini := Except.error 502 }
      { query := some "q", step := 3, previousData := none }
      = HandlerResponse.serverError "Gemini API error: 502" :=
  (step3_join_failure_propagates { oracleOk with gemini := Except.error 502 }
      "q" none (by decide)).2 502 ({} : PerplexityRaw) rfl rfl

/-- C4: when the providers respond successfully, each step index `0..4`
(with any `previousData`, in particular the history of steps `0..i-1`)
yields a 200 step result whose `step` is the index, whose `progress` is the
fixed checkpoint (20, 40, 65, 85, 100) and whose `nextStep` is the next
index (`null` at step 4). -/
theorem step_progress_and_nextStep (u : Upstream) (q : String)
    (praw : PerplexityRaw) (graw : GeminiResponse) (oraw : OpenAIResponse)
    (hq : q ≠ "") (hp : u.perplexity = Except.ok praw)
    (hg : u.gemini = Except.ok graw) (ho : u.openai = Except.ok oraw) :
    (∀ pd, stepOfR (handle u { query := some q, step := 0, previousData := pd }) = some 0 ∧
      progressOf (handle u { query := some q, step := 0, previousData := pd }) = some 20 ∧
      nextStepOf (handle u { query := some q, step := 0, previousData := pd }) = some (some 1)) ∧
    (∀ pd, stepOfR (handle u { query := some q, step := 1, previousData := pd }) = some 1 ∧
      progressOf (handle u { query := some q, step := 1, previousData := pd }) = some 40 ∧
      nextStepOf (handle u { query := some q, step := 1, previousData := pd }) = some (some 2)) ∧
    (∀ pd, stepOfR (handle u { query := some q, step := 2, previousData := pd }) = some 2 ∧
      progressOf (handle u { query := some q, step := 2, previousData := pd }) = some 65 ∧
      nextStepOf (handle u { query := some q, step := 2, previousData := pd }) = some (some 3)) ∧
    (∀ pd, stepOfR (handle u { query := some q, step := 3, previousData := pd }) = some 3 ∧
      progressOf (handle u { query := some q, step := 3, previousData := pd }) = some 85 ∧
      nextStepOf (handle u { query := some q, step := 3, previousData := pd }) = some (some 4)) ∧
    (∀ pd, stepOfR (handle u { query := some q, step := 4, previousData := pd }) = some 4 ∧
      progressOf (handle u { query := some q, step := 4, previousData := pd }) = some 100 ∧
      nextStepOf (handle u { query := some q, step := 4, previousData := pd }) = some none) := by
  refine ⟨fun pd => ?_, fun pd => ?_, fun pd => ?_, fun pd => ?_, fun pd => ?_⟩ <;>
    simp [handle, hq, currentStepOf, lookupResearchStep, researchSteps,
      callPerplexity, callGemini, callOpenAI, hp, hg, ho,
      stepOfR, progressOf, nextStepOf]

/-- C4 witness: the checkpoint table at a concrete all-success world —
step 1 reports 40 / next 2, step 4 reports 100 / next `null`. -/
theorem step_progress_and_nextStep_witness :
    (progressOf (handle oracleOk { query := some "q", step := 1, previousData := none })
      = some 40 ∧
     nextStepOf (handle oracleOk { query := some "q", step := 1, previousData := none })
      = some (some 2)) ∧
    (progressOf (handle oracleOk { query := some "q", step := 4, previousData := none })
      = some 100 ∧
     nextStepOf (handle oracleOk { query := some "q", step := 4, previousData := none })
      = some none) :=
  ⟨⟨((step_progress_and_nextStep oracleOk "q" {} { payload := "gemini synthesis" }
      { payload := "openai tags" } (by decide) rfl rfl rfl).2.1 none).2.1,
    ((step_progress_and_nextStep oracleOk "q" {} { payload := "gemini synthesis" }
      { payload := "openai tags" } (by decide) rfl rfl rfl).2.1 none).2.2⟩,
   ⟨((step_progress_and_nextStep oracleOk "q" {} { payload := "gemini synthesis" }
      { payload := "openai tags" } (by decide) rfl rfl rfl).2.2.2.2 none).2.1,
    ((step_progress_and_nextStep oracleOk "q" {} { payload := "gemini synthesis" }
      { payload := "openai tags" } (by decide) rfl rfl rfl).2.2.2.2 none).2.2⟩⟩

/-- C5: `generateFinalReport` aggregates `totalSources` as the sum over the
history of each element's `data.citations` length (0 when absent) and
`totalTokens` as the sum of each element's `data.usage.total_tokens`
(0 when absent); on the concrete history whose step-0 entry has 5 citations
and 120 tokens and whose step-2 entry has 0 citations and 80 tokens it
returns `totalSources = 5` and `totalTokens = 200`. -/
theorem finalReport_aggregation :
    (∀ (q ts : String) (l : List StepData),
      (generateFinalReport q ts (some l)).totalSources = (l.map citationCount).sum ∧
      (generateFinalReport q ts (some l)).totalTokens = (l.map tokenCount).sum) ∧
    (generateFinalReport "climate policy" "t" (some sampleHistory)).totalSources = 5 ∧
    (generateFinalReport "climate policy" "t" (some sampleHistory)).totalTokens = 200 := by
  refine ⟨fun q ts l => ⟨?_, ?_⟩, ?_, ?_⟩
  · simp [generateFinalReport, totalSources_foldl, emptyReport]
  · simp [generateFinalReport, totalTokens_foldl, emptyReport]
  · rfl
  · rfl

/-- C6: on an empty history — both the empty array and the `null` default —
the final-report builder returns `totalSources = 0` and `totalTokens = 0`
(totally, hence without raising), and step 4 still answers 200 with
`progress = 100`, `nextStep = null` on an absent history. -/
theorem finalReport_empty_history (q ts : String) (u : Upstream) (hq : q ≠ "") :
    ((generateFinalReport q ts (some [])).totalSources = 0 ∧
     (generateFinalReport q ts (some [])).totalTokens = 0) ∧
    ((generateFinalReport q ts none).totalSources = 0 ∧
     (generateFinalReport q ts none).totalTokens = 0) ∧
    (stepOfR (handle u { query := some q, step := 4, previousData := none }) = some 4 ∧
     progressOf (handle u { query := some q, step := 4, previousData := none }) = some 100 ∧
     nextStepOf (handle u { query := some q, step := 4, previousData := none }) = some none) := by
  refine ⟨⟨rfl, rfl⟩, ⟨rfl, rfl⟩, ?_⟩
  simp [handle, hq, currentStepOf, lookupResearchStep, researchSteps,
    stepOfR, progressOf, nextStepOf]

/-- C6 witness: the empty-history totals and the step-4 response at a
concrete query and world. -/
theorem finalReport_empty_history_witness :
    (generateFinalReport "x" "t" (some [])).totalSources = 0 ∧
    progressOf (handle oracleOk { query := some "x", step := 4, previousData := none })
      = some 100 :=
  ⟨(finalReport_empty_history "x" "t" oracleOk (by decide)).1.1,
   (finalReport_empty_history "x" "t" oracleOk (by decide)).2.2.2.1⟩

/-- C7 counterexample.  The claim says the cross-reference synthesizer
returns the fixed three-record catalog for every history.  For the `null`
history — the `previousData` default, passed verbatim to
`generateCrossReferences` by step 3 — the `if (!data) return []` guard
returns the empty list instead: zero records, not three. -/
theorem crossReferences_empty_on_null_history :
    generateCrossReferences none = [] ∧ (generateCrossReferences none).length = 0 :=
  ⟨rfl, rfl⟩

/-- C7 (amended): for every non-`null` history — any array, including the
empty one — the synthesizer returns the fixed catalog of exactly three
relationship records with fixed confidences (0.92, 0.88, 0.95) and fixed
provider attributions, independent of the history's content; for the `null`
history it returns the empty list. -/
theorem crossReferences_fixed_catalog :
    (∀ l : List StepData, generateCrossReferences (some l) =
      [ { type := "fact_verification"
          confidence := 92/100
          sources := ["Perplexity", "Gemini"]
          description := "Факты подтверждены несколькими источниками" },
        { type := "semantic_consistency"
          confidence := 88/100
          sources := ["Gemini", "OpenAI"]
          description := "Семантическая согласованность анализа" },
        { type := "classification_accuracy"
          confidence := 95/100
          sources := ["OpenAI", "Perplexity"]
          description := "Точность классификации и тегирования" } ]) ∧
    generateCrossReferences none = [] :=
  ⟨fun _ => rfl, rfl⟩

/-- C8: two invocations that both return a 200 step result for the same
request (same `query`, same `step`, same `previousData`), under possibly
different provider worlds, agree on the wrapping metadata
`(step, stepName, service, progress)`. -/
theorem wrapping_metadata_deterministic (u1 u2 : Upstream) (req : Request)
    (x1 x2 : ℕ × String × String × ℕ)
    (h1 : headerOf (handle u1 req) = some x1)
    (h2 : headerOf (handle u2 req) = some x2) : x1 = x2 :=
  (headerOf_handle u1 req x1 h1).trans (headerOf_handle u2 req x2 h2).symm

/-- C8 witness: two step-1 runs whose Gemini payloads differ produce equal
wrapping metadata. -/
theorem wrapping_metadata_deterministic_witness :
    headerOf (handle oracleOk { query := some "q", step := 1, previousData := none })
      = headerOf (handle { oracleOk with gemini := Except.ok { payload := "another run" } }
          { query := some "q", step := 1, previousData := none }) :=
  congrArg some
    (wrapping_metadata_deterministic oracleOk
      { oracleOk with gemini := Except.ok { payload := "another run" } }
      { query := some "q", step := 1, previousData := none }
      (1, "Глубокий анализ", "Gemini", 40)
      (1, "Глубокий анализ", "Gemini", 40) rfl rfl)

/-- C9 counterexample.  The claim calls a url malformed only when it is
missing or not a string, and asserts the placeholder lands at exactly that
position with every valid url untouched.  On a list whose position-0 url is
absent and whose position-1 url is the empty string — present and a string,
hence valid in the claim's sense — the code substitutes `"#"` at both
positions (`!citation.url` is also true for the falsy empty string), so the
placeholder is not at exactly position 0 and a claim-valid url was changed. -/
theorem placeholder_substituted_at_empty_string_url :
    emptyUrlCitations.map CitationIn.url = [none, some (UrlVal.str "")] ∧
    (enhanceCitations oracleOk.perplexityRands emptyUrlCitations).map CitationOut.url
      = ["#", "#"] :=
  ⟨rfl, rfl⟩

/-- C9 (amended): post-processing substitutes the `"#"` placeholder at
exactly the positions whose url is missing, not a string, or the (falsy)
empty string, and leaves every non-empty string url unchanged. -/
theorem url_placeholder_exact (rands : ℕ → ℚ × ℚ) (cs : List CitationIn)
    (i : ℕ) (h1 : i < cs.length) (h2 : i < (enhanceCitations rands cs).length) :
    (jsMalformedUrl (cs.get ⟨i, h1⟩).url = true →
      ((enhanceCitations rands cs).get ⟨i, h2⟩).url = "#") ∧
    (∀ s, (cs.get ⟨i, h1⟩).url = some (UrlVal.str s) → s ≠ "" →
      ((enhanceCitations rands cs).get ⟨i, h2⟩).url = s) := by
  rw [get_enhanceCitations rands cs i h1 h2]
  generalize cs.get ⟨i, h1⟩ = c
  constructor
  · intro hm
    cases hu : c.url with
    | none => simp [enhanceCitation, fixUrl, hu]
    | some v =>
      cases v with
      | str s =>
        rw [hu] at hm
        simp only [jsMalformedUrl, beq_iff_eq] at hm
        simp [enhanceCitation, fixUrl, hu, hm]
      | nonString => simp [enhanceCitation, fixUrl, hu]
  · intro s hs hne
    simp [enhanceCitation, fixUrl, hs, hne]

/-- C9 witness: the amended behaviour on a list with an empty-string url at
position 0 (replaced) and a well-formed url at position 1 (kept). -/
theorem url_placeholder_exact_witness :
    ((enhanceCitations oracleOk.perplexityRands mixedUrlCitations).get
      ⟨0, by simp [mixedUrlCitations]⟩).url = "#" ∧
    ((enhanceCitations oracleOk.perplexityRands mixedUrlCitations).get
      ⟨1, by simp [mixedUrlCitations]⟩).url = "https://ok.example" :=
  ⟨(url_placeholder_exact oracleOk.perplexityRands mixedUrlCitations 0
      (by simp [mixedUrlCitations]) (by simp [mixedUrlCitations])).1 rfl,
   (url_placeholder_exact oracleOk.perplexityRands mixedUrlCitations 1
      (by simp [mixedUrlCitations]) (by simp [mixedUrlCitations])).2
     "https://ok.example" rfl (by decide)⟩

/-- C10: a request whose `step` is outside `0..4` is not rejected: when the
Perplexity call succeeds, `researchSteps[step] || "initial_research"`
silently selects step 0, and the response is the initial-research result
with `step = 0`, `progress = 20`, `nextStep = 1`. -/
theorem invalid_step_falls_back_to_initial (u : Upstream) (q : String)
    (pd : Option (List StepData)) (step : ℤ) (praw : PerplexityRaw)
    (hq : q ≠ "") (hstep : ¬ (0 ≤ step ∧ step < 5))
    (hp : u.perplexity = Except.ok praw) :
    stepOfR (handle u { query := some q, step := step, previousData := pd }) = some 0 ∧
    stepNameOf (handle u { query := some q, step := step, previousData := pd })
      = some "Начальное исследование" ∧
    progressOf (handle u { query := some q, step := step, previousData := pd }) = some 20 ∧
    nextStepOf (handle u { query := some q, step := step, previousData := pd })
      = some (some 1) := by
  have hname : currentStepOf step = "initial_research" := by
    simp [currentStepOf, lookupResearchStep, hstep]
  simp [handle, hq, hname, callPerplexity, hp,
    stepOfR, stepNameOf, progressOf, nextStepOf]

/-- C10 witness: the fallback at the out-of-range index 7. -/
theorem invalid_step_falls_back_to_initial_witness :
    stepOfR (handle oracleOk { query := some "q", step := 7, previousData := none })
      = some 0 ∧
    stepNameOf (handle oracleOk { query := some "q", step := 7, previousData := none })
      = some "Начальное исследование" ∧
    progressOf (handle oracleOk { query := some "q", step := 7, previousData := none })
      = some 20 ∧
    nextStepOf (handle oracleOk { query := some "q", step := 7, previousData := none })
      = some (some 1) :=
  invalid_step_falls_back_to_initial oracleOk "q" none 7 {} (by decide) (by decide) rfl

end VibeResearch
